import Mathlib

/-!
Verification of `completion_aggregator/xapi.py`: transformers that map
completion-aggregator events into xAPI statements.

The embedding models the event payload as the three dotted-path fields the
module reads (`data.block_id`, `data.course_id`, `data.percent`), the tincan
output values (`Verb`, `Activity`, `Result`) as plain structures, and the
external base-transformer helpers (`get_data`, `get_object_iri`) as explicit
Lean functions.  Python exceptions (`ValueError` from a required `get_data`,
`NotImplementedError` from `get_object`) become an `Except PyError` result.
Rational numbers stand in for the payload's numeric percent values; the only
numeric operations in the source are an equality test and Python truthiness.
-/

/-- Python exceptions raised by this module or its payload accessor. -/
inductive PyError where
  | valueError
  | notImplementedError
deriving DecidableEq, Repr

/-- The event payload, reduced to the three dotted paths the module reads.
A `none` field is a path that is absent (or bound to Python `None`). -/
structure Payload where
  block_id : Option String
  course_id : Option String
  percent : Option ℚ
deriving DecidableEq, Repr

/-- A language map, as in `LanguageMap({constants.EN: constants.COMPLETED})`. -/
abbrev tincan.LanguageMap := List (String × String)

/-- tincan `Verb`: an id with a display language map. -/
structure tincan.Verb where
  id : String
  display : tincan.LanguageMap
deriving DecidableEq, Repr

/-- tincan `ActivityDefinition`: carries the activity type. -/
structure tincan.ActivityDefinition where
  type : Option String
deriving DecidableEq, Repr

/-- tincan `Activity`: id plus definition. -/
structure tincan.Activity where
  id : Option String
  definition : tincan.ActivityDefinition
deriving DecidableEq, Repr

/-- The `score` dict passed to `Result`: a single scaled value. -/
structure tincan.Score where
  scaled : ℚ
deriving DecidableEq, Repr

/-- tincan `Result`: completion flag and score. -/
structure tincan.Result where
  completion : Bool
  score : tincan.Score
deriving DecidableEq, Repr

/-- Python truthiness of an optional string: `None` and `""` are falsy. -/
def pyTruthy (v : Option String) : Bool :=
  match v with
  | some s => !s.isEmpty
  | none => false

/-- Python `x or 0` on an optional number: `None` and `0` are falsy and give
`0`; any other number is returned unchanged. -/
def pyOrZero (v : Option ℚ) : ℚ :=
  match v with
  | some x => if x = 0 then 0 else x
  | none => 0

/-- Modelled from the spec: the external base transformer's
`get_data(path, required=True)` payload accessor, which returns the value at
the path and raises (`ValueError`) when the path is absent. -/
def get_data_req (v : Option String) : Except PyError String :=
  match v with
  | some s => Except.ok s
  | none => Except.error PyError.valueError

/-- Modelled from the spec: the external base transformer's `get_data(path)`
payload accessor without `required`, which returns the value at the path or
`None` when the path is absent. -/
def get_data_opt (v : Option String) : Option String :=
  v

/-- Modelled from the spec: the external base transformer's
`get_object_iri(object_type, object_id)`, which builds an opaque object
identifier string by deterministically combining a fixed namespace with a
payload-supplied identifier, and yields an absent identifier when the
payload-supplied identifier is absent. -/
def get_object_iri (objectType : String) (objectId : Option String) : Option String :=
  match objectId with
  | some oid => some (objectType ++ "/" ++ oid)
  | none => none

/-- External framework constant `constants.XAPI_VERB_COMPLETED`. -/
def constants.XAPI_VERB_COMPLETED : String :=
  "http://adlnet.gov/expapi/verbs/completed"

/-- External framework constant `constants.XAPI_VERB_PROGRESSED`. -/
def constants.XAPI_VERB_PROGRESSED : String :=
  "http://adlnet.gov/expapi/verbs/progressed"

/-- External framework constant `constants.EN`. -/
def constants.EN : String := "en"

/-- External framework constant `constants.COMPLETED`. -/
def constants.COMPLETED : String := "completed"

/-- External framework constant `constants.PROGRESSED`. -/
def constants.PROGRESSED : String := "progressed"

/-- External framework constant `constants.XAPI_ACTIVITY_MODULE`. -/
def constants.XAPI_ACTIVITY_MODULE : String :=
  "http://adlnet.gov/expapi/activities/module"

/-- External framework constant `constants.XAPI_ACTIVITY_COURSE`. -/
def constants.XAPI_ACTIVITY_COURSE : String :=
  "http://adlnet.gov/expapi/activities/course"

/-- Module-local fallback constant `XAPI_ACTIVITY_LESSON` (xapi.py line 12). -/
def XAPI_ACTIVITY_LESSON : String :=
  "http://adlnet.gov/expapi/activities/lesson"

/-- `BaseCompletionTransformer._verb`: the fixed "completed" verb. -/
def BaseCompletionTransformer._verb : tincan.Verb :=
  { id := constants.XAPI_VERB_COMPLETED
    display := [(constants.EN, constants.COMPLETED)] }

/-- `BaseCompletionTransformer.get_object`, abstracted over the class's
`object_type` attribute and the (possibly raising) `object_id` attribute
access: raises `NotImplementedError` when the object type is falsy, then
evaluates the object id (propagating its exception) and raises
`NotImplementedError` when that is falsy too; otherwise builds the
`Activity`. -/
def BaseCompletionTransformer.get_object (object_type : Option String)
    (object_id : Except PyError (Option String)) : Except PyError tincan.Activity :=
  if !pyTruthy object_type then
    Except.error PyError.notImplementedError
  else
    match object_id with
    | Except.error e => Except.error e
    | Except.ok oid =>
      if !pyTruthy oid then
        Except.error PyError.notImplementedError
      else
        Except.ok { id := oid, definition := { type := object_type } }

/-- `ModuleCompletionTransformer.object_type`. -/
def ModuleCompletionTransformer.object_type : Option String :=
  some constants.XAPI_ACTIVITY_MODULE

/-- `ModuleCompletionTransformer.object_id`: the IRI built from the required
`data.block_id` field (raises `ValueError` when the field is absent). -/
def ModuleCompletionTransformer.object_id (p : Payload) : Except PyError (Option String) :=
  match get_data_req p.block_id with
  | Except.error e => Except.error e
  | Except.ok bid => Except.ok (get_object_iri "xblock" (some bid))

/-- `ModuleCompletionTransformer.get_object`: the base method applied to the
class's attributes. -/
def ModuleCompletionTransformer.get_object (p : Payload) : Except PyError tincan.Activity :=
  BaseCompletionTransformer.get_object ModuleCompletionTransformer.object_type
    (ModuleCompletionTransformer.object_id p)

/-- `LessonCompletionTransformer.object_type`: the value of
`getattr(constants, "XAPI_ACTIVITY_LESSON", XAPI_ACTIVITY_LESSON)`, abstracted
over whether the external constants module defines `XAPI_ACTIVITY_LESSON`. -/
def LessonCompletionTransformer.object_type (constantsLesson : Option String) : Option String :=
  some (constantsLesson.getD XAPI_ACTIVITY_LESSON)

/-- `LessonCompletionTransformer.object_id`: inherited unchanged from
`ModuleCompletionTransformer`. -/
def LessonCompletionTransformer.object_id : Payload → Except PyError (Option String) :=
  ModuleCompletionTransformer.object_id

/-- `LessonCompletionTransformer.get_object`: the inherited base method applied
to the class's attributes. -/
def LessonCompletionTransformer.get_object (constantsLesson : Option String)
    (p : Payload) : Except PyError tincan.Activity :=
  BaseCompletionTransformer.get_object (LessonCompletionTransformer.object_type constantsLesson)
    (LessonCompletionTransformer.object_id p)

/-- `CourseCompletionTransformer.object_type`. -/
def CourseCompletionTransformer.object_type : Option String :=
  some constants.XAPI_ACTIVITY_COURSE

/-- `CourseCompletionTransformer.object_id`: the IRI built from the required
`data.course_id` field (raises `ValueError` when the field is absent). -/
def CourseCompletionTransformer.object_id (p : Payload) : Except PyError (Option String) :=
  match get_data_req p.course_id with
  | Except.error e => Except.error e
  | Except.ok cid => Except.ok (get_object_iri "courses" (some cid))

/-- `CourseCompletionTransformer.get_object`: the base method applied to the
class's attributes. -/
def CourseCompletionTransformer.get_object (p : Payload) : Except PyError tincan.Activity :=
  BaseCompletionTransformer.get_object CourseCompletionTransformer.object_type
    (CourseCompletionTransformer.object_id p)

/-- `CourseCompletionTransformer.get_context_activities`: always `None`. -/
def CourseCompletionTransformer.get_context_activities (_ : Payload) :
    Option (List tincan.Activity) :=
  none

/-- `BaseProgressTransformer._verb`: the fixed "progressed" verb. -/
def BaseProgressTransformer._verb : tincan.Verb :=
  { id := constants.XAPI_VERB_PROGRESSED
    display := [(constants.EN, constants.PROGRESSED)] }

/-- `BaseProgressTransformer.get_object`, abstracted over the class's
`object_type` and (never-raising) `object_id` attributes: raises
`NotImplementedError` only when the object type is falsy; the object id is
passed through unchecked, so an absent identifier yields an `Activity` with an
absent id. -/
def BaseProgressTransformer.get_object (object_type : Option String)
    (object_id : Option String) : Except PyError tincan.Activity :=
  if !pyTruthy object_type then
    Except.error PyError.notImplementedError
  else
    Except.ok { id := object_id, definition := { type := object_type } }

/-- `BaseProgressTransformer.get_result`: `progress = get_data("data.percent")
or 0`, `completion = (progress == 1.0)`, `score.scaled = get_data
("data.percent") or 0`. -/
def BaseProgressTransformer.get_result (p : Payload) : tincan.Result :=
  let progress : ℚ := pyOrZero p.percent
  { completion := decide (progress = 1)
    score := { scaled := pyOrZero p.percent } }

/-- `ModuleProgressTransformer.object_type`. -/
def ModuleProgressTransformer.object_type : Option String :=
  some constants.XAPI_ACTIVITY_MODULE

/-- `ModuleProgressTransformer.object_id`: the IRI built from the optional
`data.block_id` field (absent field gives an absent IRI, no exception). -/
def ModuleProgressTransformer.object_id (p : Payload) : Option String :=
  get_object_iri "xblock" (get_data_opt p.block_id)

/-- `ModuleProgressTransformer.get_object`: the inherited base method applied
to the class's attributes. -/
def ModuleProgressTransformer.get_object (p : Payload) : Except PyError tincan.Activity :=
  BaseProgressTransformer.get_object ModuleProgressTransformer.object_type
    (ModuleProgressTransformer.object_id p)

/-- `ModuleProgressTransformer.get_result`: inherited unchanged from
`BaseProgressTransformer`. -/
def ModuleProgressTransformer.get_result : Payload → tincan.Result :=
  BaseProgressTransformer.get_result

/-- `LessonProgressTransformer.object_type`: the value of
`getattr(constants, "XAPI_ACTIVITY_LESSON", XAPI_ACTIVITY_LESSON)`, abstracted
over whether the external constants module defines `XAPI_ACTIVITY_LESSON`. -/
def LessonProgressTransformer.object_type (constantsLesson : Option String) : Option String :=
  some (constantsLesson.getD XAPI_ACTIVITY_LESSON)

/-- `LessonProgressTransformer.object_id`: inherited unchanged from
`ModuleProgressTransformer`. -/
def LessonProgressTransformer.object_id : Payload → Option String :=
  ModuleProgressTransformer.object_id

/-- `LessonProgressTransformer.get_object`: the inherited base method applied
to the class's attributes. -/
def LessonProgressTransformer.get_object (constantsLesson : Option String)
    (p : Payload) : Except PyError tincan.Activity :=
  BaseProgressTransformer.get_object (LessonProgressTransformer.object_type constantsLesson)
    (LessonProgressTransformer.object_id p)

/-- `LessonProgressTransformer.get_result`: inherited unchanged from
`BaseProgressTransformer`. -/
def LessonProgressTransformer.get_result : Payload → tincan.Result :=
  BaseProgressTransformer.get_result

/-- `CourseProgressTransformer.object_type`. -/
def CourseProgressTransformer.object_type : Option String :=
  some constants.XAPI_ACTIVITY_COURSE

/-- `CourseProgressTransformer.object_id`: the IRI built from the optional
`data.course_id` field (absent field gives an absent IRI, no exception). -/
def CourseProgressTransformer.object_id (p : Payload) : Option String :=
  get_object_iri "courses" (get_data_opt p.course_id)

/-- `CourseProgressTransformer.get_object`: the inherited base method applied
to the class's attributes. -/
def CourseProgressTransformer.get_object (p : Payload) : Except PyError tincan.Activity :=
  BaseProgressTransformer.get_object CourseProgressTransformer.object_type
    (CourseProgressTransformer.object_id p)

/-- `CourseProgressTransformer.get_result`: inherited unchanged from
`BaseProgressTransformer`. -/
def CourseProgressTransformer.get_result : Payload → tincan.Result :=
  BaseProgressTransformer.get_result

/-- `CourseProgressTransformer.get_context_activities`: always `None`. -/
def CourseProgressTransformer.get_context_activities (_ : Payload) :
    Option (List tincan.Activity) :=
  none

/-- The six transformer classes this module registers. -/
inductive TransformerClass where
  | moduleCompletion
  | lessonCompletion
  | courseCompletion
  | moduleProgress
  | lessonProgress
  | courseProgress
deriving DecidableEq, Repr

/-- The `XApiTransformersRegistry.register` declarations of xapi.py: each
supported event-type key paired with the transformer class registered for
it. -/
def registry : List (String × TransformerClass) :=
  [("openedx.completion_aggregator.completion.chapter", TransformerClass.moduleCompletion),
   ("openedx.completion_aggregator.completion.sequential", TransformerClass.moduleCompletion),
   ("openedx.completion_aggregator.completion.vertical", TransformerClass.lessonCompletion),
   ("openedx.completion_aggregator.completion.course", TransformerClass.courseCompletion),
   ("openedx.completion_aggregator.progress.chapter", TransformerClass.moduleProgress),
   ("openedx.completion_aggregator.progress.sequential", TransformerClass.moduleProgress),
   ("openedx.completion_aggregator.progress.vertical", TransformerClass.lessonProgress),
   ("openedx.completion_aggregator.progress.course", TransformerClass.courseProgress)]

/-- The `_verb` attribute each registered class inherits from its base. -/
def verbOf : TransformerClass → tincan.Verb
  | TransformerClass.moduleCompletion => BaseCompletionTransformer._verb
  | TransformerClass.lessonCompletion => BaseCompletionTransformer._verb
  | TransformerClass.courseCompletion => BaseCompletionTransformer._verb
  | TransformerClass.moduleProgress => BaseProgressTransformer._verb
  | TransformerClass.lessonProgress => BaseProgressTransformer._verb
  | TransformerClass.courseProgress => BaseProgressTransformer._verb

/-- State of one transformer instance for a `cached_property` accessor: the
immutable payload plus the cache slot Python keeps in the instance dict. -/
structure CachedInstance (α : Type) where
  payload : Payload
  cache : Option α
deriving DecidableEq, Repr

/-- One access to a `cached_property` whose computation may raise: a cache hit
returns the stored value; a miss runs the computation, storing the value only
when it does not raise (Python's `cached_property` caches nothing on an
exception). -/
def cachedGet {α : Type} (compute : Payload → Except PyError α)
    (inst : CachedInstance α) : Except PyError α × CachedInstance α :=
  match inst.cache with
  | some v => (Except.ok v, inst)
  | none =>
    match compute inst.payload with
    | Except.ok v => (Except.ok v, { payload := inst.payload, cache := some v })
    | Except.error e => (Except.error e, inst)

/-- One access to a `cached_property` whose computation never raises. -/
def cachedGetPure {α : Type} (compute : Payload → α)
    (inst : CachedInstance α) : α × CachedInstance α :=
  match inst.cache with
  | some v => (v, inst)
  | none => (compute inst.payload, { payload := inst.payload, cache := some (compute inst.payload) })

/-- Helper: the Python default `percent or 0` equals `1` exactly when the
payload carries the percent value `1`. -/
theorem pyOrZero_eq_one_iff (v : Option ℚ) : pyOrZero v = 1 ↔ v = some 1 := by
  cases v with
  | none => simp [pyOrZero]
  | some x =>
    by_cases hx : x = 0
    · subst hx
      simp [pyOrZero]
    · simp [pyOrZero, hx]

/-- C1: for every progress transformer (all of which inherit
`BaseProgressTransformer.get_result`), `result.score.scaled` equals the
payload's `data.percent` when that value is truthy and `0` when it is falsy or
absent, and `result.completion` is true exactly when `data.percent` is `1`. -/
theorem C1_progress_get_result (p : Payload) :
    ((p.percent = none ∨ p.percent = some 0) →
      (BaseProgressTransformer.get_result p).score.scaled = 0)
    ∧ (∀ x : ℚ, p.percent = some x → x ≠ 0 →
      (BaseProgressTransformer.get_result p).score.scaled = x)
    ∧ ((BaseProgressTransformer.get_result p).completion = true ↔ p.percent = some 1)
    ∧ ModuleProgressTransformer.get_result p = BaseProgressTransformer.get_result p
    ∧ LessonProgressTransformer.get_result p = BaseProgressTransformer.get_result p
    ∧ CourseProgressTransformer.get_result p = BaseProgressTransformer.get_result p := by
  refine ⟨?_, ?_, ?_, rfl, rfl, rfl⟩
  · rintro (h | h) <;> simp [BaseProgressTransformer.get_result, pyOrZero, h]
  · intro x hx hne
    simp [BaseProgressTransformer.get_result, pyOrZero, hx, hne]
  · simpa [BaseProgressTransformer.get_result] using pyOrZero_eq_one_iff p.percent

/-- C1 witness: at percent `1` the completion flag is set, and at an absent
percent the scaled score is `0`. -/
theorem C1_progress_get_result_witness :
    (BaseProgressTransformer.get_result
      { block_id := none, course_id := none, percent := some 1 }).completion = true
    ∧ (BaseProgressTransformer.get_result
      { block_id := none, course_id := none, percent := none }).score.scaled = 0 :=
  ⟨(C1_progress_get_result { block_id := none, course_id := none, percent := some 1 }).2.2.1.mpr
      rfl,
    (C1_progress_get_result { block_id := none, course_id := none, percent := none }).1
      (Or.inl rfl)⟩

/-- C2 counterexample: a payload with percent `2` is accepted and produces a
scaled score of `2`, outside `[0,1]`; the claimed invariant fails. -/
theorem C2_scaled_in_unit_interval_counterexample :
    (BaseProgressTransformer.get_result
      { block_id := none, course_id := none, percent := some 2 }).score.scaled = 2
    ∧ ¬ ((BaseProgressTransformer.get_result
      { block_id := none, course_id := none, percent := some 2 }).score.scaled ≤ 1) := by
  constructor
  · decide
  · decide

/-- C2 amended: the scaled score defaults to `0` when the percent field is
absent, lies in `[0,1]` whenever the supplied percent lies in `[0,1]`, and
out-of-range percent values pass through unchanged (no clamping). -/
theorem C2_scaled_in_unit_interval_amended (p : Payload) :
    (p.percent = none → (BaseProgressTransformer.get_result p).score.scaled = 0)
    ∧ (∀ x : ℚ, p.percent = some x → 0 ≤ x → x ≤ 1 →
        0 ≤ (BaseProgressTransformer.get_result p).score.scaled
        ∧ (BaseProgressTransformer.get_result p).score.scaled ≤ 1)
    ∧ (∀ x : ℚ, p.percent = some x → x ≠ 0 →
        (BaseProgressTransformer.get_result p).score.scaled = x) := by
  refine ⟨?_, ?_, ?_⟩
  · intro h
    simp [BaseProgressTransformer.get_result, pyOrZero, h]
  · intro x hx h0 h1
    by_cases hz : x = 0
    · subst hz
      constructor <;> simp [BaseProgressTransformer.get_result, pyOrZero, hx]
    · constructor <;> simp [BaseProgressTransformer.get_result, pyOrZero, hx, hz]
      · exact h0
      · exact h1
  · intro x hx hne
    simp [BaseProgressTransformer.get_result, pyOrZero, hx, hne]

/-- C2 amended witness: at percent `1/2` the scaled score lies in `[0,1]`. -/
theorem C2_scaled_in_unit_interval_amended_witness :
    0 ≤ (BaseProgressTransformer.get_result
      { block_id := none, course_id := none, percent := some (1/2) }).score.scaled
    ∧ (BaseProgressTransformer.get_result
      { block_id := none, course_id := none, percent := some (1/2) }).score.scaled ≤ 1 :=
  (C2_scaled_in_unit_interval_amended
      { block_id := none, course_id := none, percent := some (1/2) }).2.1
    (1/2) rfl (by norm_num) (by norm_num)

/-- C3 counterexample: with `data.course_id` absent, the course completion
transformer's identifier derivation raises (`required=True`), contradicting the
claim that the field is tolerated as optional. -/
theorem C3_course_completion_counterexample :
    CourseCompletionTransformer.object_id
      { block_id := none, course_id := none, percent := none }
      = Except.error PyError.valueError
    ∧ (CourseCompletionTransformer.object_id
      { block_id := none, course_id := none, percent := none }).isOk = false := by
  constructor
  · rfl
  · rfl

/-- C3 amended: the course completion transformer requires `data.course_id`
(absence is a hard failure); only the course progress transformer treats the
course identifier as optional. -/
theorem C3_course_id_required (p : Payload) :
    (∀ cid, p.course_id = some cid →
      CourseCompletionTransformer.object_id p
        = Except.ok (get_object_iri "courses" (some cid)))
    ∧ (p.course_id = none →
      CourseCompletionTransformer.object_id p = Except.error PyError.valueError)
    ∧ CourseProgressTransformer.object_id p = get_object_iri "courses" p.course_id := by
  refine ⟨?_, ?_, rfl⟩
  · intro cid h
    simp [CourseCompletionTransformer.object_id, get_data_req, h]
  · intro h
    simp [CourseCompletionTransformer.object_id, get_data_req, h]

/-- C3 amended witness: a present course id yields the IRI, an absent one
raises. -/
theorem C3_course_id_required_witness :
    CourseCompletionTransformer.object_id
      { block_id := none, course_id := some "c1", percent := none }
      = Except.ok (get_object_iri "courses" (some "c1"))
    ∧ CourseCompletionTransformer.object_id
      { block_id := none, course_id := none, percent := none }
      = Except.error PyError.valueError :=
  ⟨(C3_course_id_required { block_id := none, course_id := some "c1", percent := none }).1
      "c1" rfl,
    (C3_course_id_required { block_id := none, course_id := none, percent := none }).2.1 rfl⟩

/-- C4: for the module and lesson completion transformers, a present
`data.block_id` yields the object identifier `get_object_iri "xblock" block_id`,
and an absent `data.block_id` makes the derivation fail hard. -/
theorem C4_block_id_required (p : Payload) :
    (∀ b, p.block_id = some b →
      ModuleCompletionTransformer.object_id p
        = Except.ok (get_object_iri "xblock" (some b))
      ∧ LessonCompletionTransformer.object_id p
        = Except.ok (get_object_iri "xblock" (some b)))
    ∧ (p.block_id = none →
      ModuleCompletionTransformer.object_id p = Except.error PyError.valueError
      ∧ LessonCompletionTransformer.object_id p = Except.error PyError.valueError) := by
  constructor
  · intro b h
    constructor <;>
      simp [LessonCompletionTransformer.object_id, ModuleCompletionTransformer.object_id,
        get_data_req, h]
  · intro h
    constructor <;>
      simp [LessonCompletionTransformer.object_id, ModuleCompletionTransformer.object_id,
        get_data_req, h]

/-- C4 witness: block id `b1` yields the combined IRI, and a missing block id
raises. -/
theorem C4_block_id_required_witness :
    ModuleCompletionTransformer.object_id
      { block_id := some "b1", course_id := none, percent := none }
      = Except.ok (get_object_iri "xblock" (some "b1"))
    ∧ ModuleCompletionTransformer.object_id
      { block_id := none, course_id := none, percent := none }
      = Except.error PyError.valueError :=
  ⟨((C4_block_id_required { block_id := some "b1", course_id := none, percent := none }).1
      "b1" rfl).1,
    ((C4_block_id_required { block_id := none, course_id := none, percent := none }).2
      rfl).1⟩

/-- C5: both course-granularity transformers return `None` from
`get_context_activities`, so no course-parent context activity is ever
emitted. -/
theorem C5_course_context_activities (p : Payload) :
    CourseCompletionTransformer.get_context_activities p = none
    ∧ CourseProgressTransformer.get_context_activities p = none :=
  ⟨rfl, rfl⟩

/-- C6: for progress transformers a missing identifier field yields an
`Activity` with an absent id rather than a failure; `get_object`'s
`NotImplementedError` is raised exactly when the class's object type is
unconfigured (falsy), which never happens for the registered concrete
classes. -/
theorem C6_progress_object_id_optional (p : Payload) :
    (p.block_id = none →
      ModuleProgressTransformer.get_object p =
        Except.ok { id := none, definition := { type := ModuleProgressTransformer.object_type } })
    ∧ (ModuleProgressTransformer.get_object p).isOk = true
    ∧ (CourseProgressTransformer.get_object p).isOk = true
    ∧ (∀ c : Option String, pyTruthy (LessonProgressTransformer.object_type c) = true →
        (LessonProgressTransformer.get_object c p).isOk = true)
    ∧ (∀ ot oid : Option String,
        BaseProgressTransformer.get_object ot oid = Except.error PyError.notImplementedError
          ↔ pyTruthy ot = false) := by
  refine ⟨?_, rfl, rfl, ?_, ?_⟩
  · intro h
    obtain ⟨b, cid, pc⟩ := p
    cases h
    rfl
  · intro c hc
    simp [LessonProgressTransformer.get_object, BaseProgressTransformer.get_object, hc,
      Except.isOk, Except.toBool]
  · intro ot oid
    by_cases h : pyTruthy ot <;>
      simp [BaseProgressTransformer.get_object, h]

/-- C6 witness: a payload without `data.block_id` yields an ok `Activity` with
an absent id, and the lesson progress transformer (fallback activity type)
also succeeds. -/
theorem C6_progress_object_id_optional_witness :
    ModuleProgressTransformer.get_object
      { block_id := none, course_id := none, percent := none } =
      Except.ok { id := none, definition := { type := ModuleProgressTransformer.object_type } }
    ∧ (LessonProgressTransformer.get_object none
      { block_id := none, course_id := none, percent := none }).isOk = true :=
  ⟨(C6_progress_object_id_optional
      { block_id := none, course_id := none, percent := none }).1 rfl,
    (C6_progress_object_id_optional
      { block_id := none, course_id := none, percent := none }).2.2.2.1 none (by decide)⟩

/-- Whether the first character list starts the second (used to classify the
registered event-type keys by their dotted family). -/
def listStarts : List Char → List Char → Bool
  | [], _ => true
  | _ :: _, [] => false
  | a :: as, b :: bs => a == b && listStarts as bs

/-- C7: every event-type key registered by the module maps to a transformer
whose verb id is the "completed" constant for the completion keys and the
"progressed" constant for the progress keys. -/
theorem C7_registered_verbs :
    ∀ kc ∈ registry, (verbOf kc.2).id =
      (if listStarts "openedx.completion_aggregator.completion.".toList kc.1.toList
        then constants.XAPI_VERB_COMPLETED
        else constants.XAPI_VERB_PROGRESSED) := by
  decide

/-- C7 witness: the chapter-completion key is registered to the module
completion transformer, whose verb id is the "completed" constant. -/
theorem C7_registered_verbs_witness :
    (verbOf TransformerClass.moduleCompletion).id = constants.XAPI_VERB_COMPLETED :=
  (C7_registered_verbs
      ("openedx.completion_aggregator.completion.chapter", TransformerClass.moduleCompletion)
      (by decide)).trans (by decide)

/-- Helper: two successive accesses to a raising `cached_property` on the same
instance return the same value. -/
theorem cachedGet_second_eq_first {α : Type} (f : Payload → Except PyError α) (p : Payload) :
    (cachedGet f (cachedGet f { payload := p, cache := none }).2).1
      = (cachedGet f { payload := p, cache := none }).1 := by
  cases hf : f p <;> simp [cachedGet, hf]

/-- Helper: two successive accesses to a non-raising `cached_property` on the
same instance return the same value. -/
theorem cachedGetPure_second_eq_first {α : Type} (f : Payload → α) (p : Payload) :
    (cachedGetPure f (cachedGetPure f { payload := p, cache := none }).2).1
      = (cachedGetPure f { payload := p, cache := none }).1 := by
  simp [cachedGetPure]

/-- C8: for every concrete transformer class, reading the `object_id`
`cached_property` twice on one instance returns the same value, and a
successful first access stores the value in the instance cache. -/
theorem C8_object_id_memoized (p : Payload) :
    (cachedGet ModuleCompletionTransformer.object_id
        (cachedGet ModuleCompletionTransformer.object_id { payload := p, cache := none }).2).1
      = (cachedGet ModuleCompletionTransformer.object_id { payload := p, cache := none }).1
    ∧ (cachedGet LessonCompletionTransformer.object_id
        (cachedGet LessonCompletionTransformer.object_id { payload := p, cache := none }).2).1
      = (cachedGet LessonCompletionTransformer.object_id { payload := p, cache := none }).1
    ∧ (cachedGet CourseCompletionTransformer.object_id
        (cachedGet CourseCompletionTransformer.object_id { payload := p, cache := none }).2).1
      = (cachedGet CourseCompletionTransformer.object_id { payload := p, cache := none }).1
    ∧ (cachedGetPure ModuleProgressTransformer.object_id
        (cachedGetPure ModuleProgressTransformer.object_id { payload := p, cache := none }).2).1
      = (cachedGetPure ModuleProgressTransformer.object_id { payload := p, cache := none }).1
    ∧ (cachedGetPure LessonProgressTransformer.object_id
        (cachedGetPure LessonProgressTransformer.object_id { payload := p, cache := none }).2).1
      = (cachedGetPure LessonProgressTransformer.object_id { payload := p, cache := none }).1
    ∧ (cachedGetPure CourseProgressTransformer.object_id
        (cachedGetPure CourseProgressTransformer.object_id { payload := p, cache := none }).2).1
      = (cachedGetPure CourseProgressTransformer.object_id { payload := p, cache := none }).1
    ∧ (∀ v, ModuleCompletionTransformer.object_id p = Except.ok v →
        (cachedGet ModuleCompletionTransformer.object_id { payload := p, cache := none }).2.cache
          = some v) := by
  refine ⟨cachedGet_second_eq_first _ p, cachedGet_second_eq_first _ p,
    cachedGet_second_eq_first _ p, cachedGetPure_second_eq_first _ p,
    cachedGetPure_second_eq_first _ p, cachedGetPure_second_eq_first _ p, ?_⟩
  intro v hv
  simp [cachedGet, hv]

/-- C8 witness: a first access with block id `b1` stores the computed IRI in
the instance cache. -/
theorem C8_object_id_memoized_witness :
    (cachedGet ModuleCompletionTransformer.object_id
      { payload := { block_id := some "b1", course_id := none, percent := none },
        cache := none }).2.cache
      = some (get_object_iri "xblock" (some "b1")) :=
  (C8_object_id_memoized
      { block_id := some "b1", course_id := none, percent := none }).2.2.2.2.2.2
    (get_object_iri "xblock" (some "b1")) rfl

/-- C9: the lesson transformers specialize the module transformers only in the
object type: verbs, object identifiers and results agree, and each lesson
`get_object` equals the module `get_object` with only the activity type
replaced (given the lesson activity type is configured, i.e. truthy). -/
theorem C9_lesson_specializes_module (p : Payload) (c : Option String)
    (hc : pyTruthy (LessonCompletionTransformer.object_type c) = true) :
    verbOf TransformerClass.lessonCompletion = verbOf TransformerClass.moduleCompletion
    ∧ LessonCompletionTransformer.object_id p = ModuleCompletionTransformer.object_id p
    ∧ LessonCompletionTransformer.get_object c p =
        (ModuleCompletionTransformer.get_object p).map
          (fun a => { id := a.id, definition := { type := LessonCompletionTransformer.object_type c } })
    ∧ verbOf TransformerClass.lessonProgress = verbOf TransformerClass.moduleProgress
    ∧ LessonProgressTransformer.object_id p = ModuleProgressTransformer.object_id p
    ∧ LessonProgressTransformer.get_result p = ModuleProgressTransformer.get_result p
    ∧ LessonProgressTransformer.get_object c p =
        (ModuleProgressTransformer.get_object p).map
          (fun a => { id := a.id, definition := { type := LessonProgressTransformer.object_type c } }) := by
  have hm : pyTruthy ModuleCompletionTransformer.object_type = true := by decide
  have hmp : pyTruthy ModuleProgressTransformer.object_type = true := by decide
  refine ⟨rfl, rfl, ?_, rfl, rfl, rfl, ?_⟩
  · simp only [LessonCompletionTransformer.get_object, ModuleCompletionTransformer.get_object,
      BaseCompletionTransformer.get_object, LessonCompletionTransformer.object_id, hc, hm,
      Bool.not_true, Bool.false_eq_true, if_false]
    cases ho : ModuleCompletionTransformer.object_id p with
    | error e => simp [Except.map]
    | ok oid =>
      by_cases hoid : pyTruthy oid <;> simp [hoid, Except.map]
  · have hlp : pyTruthy (LessonProgressTransformer.object_type c) = true := hc
    simp [LessonProgressTransformer.get_object, ModuleProgressTransformer.get_object,
      BaseProgressTransformer.get_object, LessonProgressTransformer.object_id, hlp, hmp,
      Except.map]

/-- C9 witness: with the fallback lesson type and block id `b1`, the lesson
completion statement object equals the module one with only the type
replaced. -/
theorem C9_lesson_specializes_module_witness :
    LessonCompletionTransformer.get_object none
      { block_id := some "b1", course_id := none, percent := none } =
      (ModuleCompletionTransformer.get_object
          { block_id := some "b1", course_id := none, percent := none }).map
        (fun a => { id := a.id, definition := { type := LessonCompletionTransformer.object_type none } }) :=
  (C9_lesson_specializes_module
      { block_id := some "b1", course_id := none, percent := none } none (by decide)).2.2.1

/-- C10: the lesson object type is the framework constant
`XAPI_ACTIVITY_LESSON` when the constants module defines it and the
module-local literal otherwise; in both actual cases (absent, or defined as
the ADL lesson URI) it differs from the module activity type, and completion
and progress lesson transformers agree on it. -/
theorem C10_lesson_activity_type (c : Option String)
    (hc : ∀ s, c = some s → s = "http://adlnet.gov/expapi/activities/lesson") :
    (c = none → LessonCompletionTransformer.object_type c = some XAPI_ACTIVITY_LESSON)
    ∧ (∀ s, c = some s → LessonCompletionTransformer.object_type c = some s)
    ∧ LessonProgressTransformer.object_type c = LessonCompletionTransformer.object_type c
    ∧ LessonCompletionTransformer.object_type c ≠ ModuleCompletionTransformer.object_type
    ∧ LessonProgressTransformer.object_type c ≠ ModuleProgressTransformer.object_type := by
  refine ⟨?_, ?_, rfl, ?_, ?_⟩
  · intro h
    subst h
    rfl
  · intro s h
    subst h
    rfl
  · cases c with
    | none => decide
    | some s =>
      have hs := hc s rfl
      subst hs
      decide
  · cases c with
    | none => decide
    | some s =>
      have hs := hc s rfl
      subst hs
      decide

/-- C10 witness: with the constants module defining the ADL lesson URI, the
lesson object type is that URI and differs from the module activity type. -/
theorem C10_lesson_activity_type_witness :
    LessonCompletionTransformer.object_type
        (some "http://adlnet.gov/expapi/activities/lesson")
      ≠ ModuleCompletionTransformer.object_type :=
  (C10_lesson_activity_type (some "http://adlnet.gov/expapi/activities/lesson")
      (fun _ h => (Option.some.inj h).symm)).2.2.2.1
